import Mathlib

/-!
Shallow embedding of the Market Data Access Engine of the databento-mcp-server
repository: the retrying HTTP transport (`DataBentoHTTP.makeRequest`,
src/http/databento-http.ts), the tabular decoder (`parseCSV`, same file), and
the `DataBentoClient` quote cache / bar pipeline / session classifier
(embedded source in README.md).

Modelling conventions:
- JavaScript numbers are modelled by `JSNum`: either `nan` or an exact
  rational.  All concrete values appearing in the claims are integers far
  below 2^53, where IEEE-754 doubles are exact, so rational arithmetic
  coincides with the source's floating-point arithmetic on the claim domain.
- The network is an oracle: the transport receives a function from attempt
  number to that attempt's outcome; the client functions receive the
  transport's overall result (`Except String String`).  Effects (attempts
  made, sleeps performed, cache mutation, transport invocations) are returned
  explicitly.
- Timestamps are milliseconds since the Unix epoch as integers.  ECMAScript
  `Date` field arithmetic uses floor division/modulo, which coincides with
  `Int.ediv`/`Int.emod` for the positive constants used here.
-/

/-- A JavaScript number: NaN or an exact rational (doubles are exact on the
integer values the claims exercise). -/
inductive JSNum where
  | nan : JSNum
  | num : ℚ → JSNum
deriving DecidableEq

instance : Inhabited JSNum := ⟨JSNum.nan⟩

/-- JS `+` on numbers (NaN-propagating). -/
def jsAdd : JSNum → JSNum → JSNum
  | JSNum.num a, JSNum.num b => JSNum.num (a + b)
  | _, _ => JSNum.nan

/-- JS `-` on numbers (NaN-propagating). -/
def jsSub : JSNum → JSNum → JSNum
  | JSNum.num a, JSNum.num b => JSNum.num (a - b)
  | _, _ => JSNum.nan

/-- JS `/` on numbers.  Every division in the embedded code has a nonzero
numeric literal divisor (`1e9`, `1e6`, `2`), so the zero-divisor case (which
JS maps to ±Infinity) never arises; we collapse it to `nan`. -/
def jsDiv : JSNum → JSNum → JSNum
  | JSNum.num a, JSNum.num b => if b = 0 then JSNum.nan else JSNum.num (a / b)
  | _, _ => JSNum.nan

/-- JS `Math.max` on two numbers (NaN-propagating, as in ECMAScript). -/
def jsMax : JSNum → JSNum → JSNum
  | JSNum.num a, JSNum.num b => JSNum.num (max a b)
  | _, _ => JSNum.nan

/-- JS `Math.min` on two numbers (NaN-propagating). -/
def jsMin : JSNum → JSNum → JSNum
  | JSNum.num a, JSNum.num b => JSNum.num (min a b)
  | _, _ => JSNum.nan

/-- JS `Math.floor` (NaN-propagating). -/
def jsFloor : JSNum → JSNum
  | JSNum.num a => JSNum.num (Int.floor a : ℤ)
  | JSNum.nan => JSNum.nan

/-- The whitespace characters relevant to the engine's data (JS `trim` and
`split` semantics restricted to the ASCII whitespace the wire format can
contain). -/
def isJsSpace (c : Char) : Bool :=
  c = ' ' ∨ c = '\t' ∨ c = '\n' ∨ c = '\r'

/-- JS `String.prototype.trim` at the character-list level (structurally
recursive so that concrete inputs evaluate in the kernel). -/
def trimChars (l : List Char) : List Char :=
  ((l.dropWhile isJsSpace).reverse.dropWhile isJsSpace).reverse

/-- JS `String.prototype.trim`. -/
def jsTrim (s : String) : String :=
  ⟨trimChars s.data⟩

/-- Split a character list at every occurrence of `sep` (JS
`String.prototype.split` with a one-character separator): `""` splits to
`[""]`, separators at the ends yield empty pieces. -/
def splitCharAux (sep : Char) : List Char → List Char → List (List Char)
  | [], acc => [acc.reverse]
  | c :: cs, acc =>
      if c = sep then acc.reverse :: splitCharAux sep cs []
      else splitCharAux sep cs (c :: acc)

/-- JS `s.split(sep)` for a one-character separator. -/
def jsSplit (sep : Char) (s : String) : List String :=
  (splitCharAux sep s.data []).map (fun l => ⟨l⟩)

/-- Value of a list of decimal digit characters. -/
def digitsVal (l : List Char) : ℕ :=
  l.foldl (fun n c => 10 * n + (c.toNat - 48)) 0

/-- JS `parseFloat`, modelled on the numeral fragment the engine receives:
optional sign, then decimal digits with an optional fractional part; any
trailing garbage is ignored (as `parseFloat` does); no digits at all gives
NaN.  Exponent forms and Infinity literals never occur in the CSV fields the
engine decodes and are not modelled. -/
def parseFloatJS (s : String) : JSNum :=
  let t := trimChars s.data
  let signed : Bool × List Char :=
    match t with
    | '-' :: r => (true, r)
    | '+' :: r => (false, r)
    | r => (false, r)
  let intDigits := signed.2.takeWhile Char.isDigit
  let afterInt := signed.2.drop intDigits.length
  let fracDigits :=
    match afterInt with
    | '.' :: r => r.takeWhile Char.isDigit
    | _ => []
  if intDigits.isEmpty ∧ fracDigits.isEmpty then JSNum.nan
  else
    let mag : ℚ := (digitsVal intDigits : ℚ) +
      (digitsVal fracDigits : ℚ) / ((10 : ℚ) ^ fracDigits.length)
    JSNum.num (if signed.1 then -mag else mag)

/-- JS `parseInt` (radix 10), modelled on the same numeral fragment: optional
sign, longest decimal-digit prefix, trailing garbage ignored, no digits gives
NaN. -/
def parseIntJS (s : String) : JSNum :=
  let t := trimChars s.data
  let signed : Bool × List Char :=
    match t with
    | '-' :: r => (true, r)
    | '+' :: r => (false, r)
    | r => (false, r)
  let ds := signed.2.takeWhile Char.isDigit
  if ds.isEmpty then JSNum.nan
  else JSNum.num (if signed.1 then -(digitsVal ds : ℚ) else (digitsVal ds : ℚ))

/-- `fields[i]` followed by `parseFloat`: an out-of-range index is
`undefined`, and `parseFloat(undefined)` is NaN. -/
def fieldFloat (fields : List String) (i : ℕ) : JSNum :=
  match fields.get? i with
  | some s => parseFloatJS s
  | none => JSNum.nan

/-- `fields[i]` followed by `parseInt`. -/
def fieldInt (fields : List String) (i : ℕ) : JSNum :=
  match fields.get? i with
  | some s => parseIntJS s
  | none => JSNum.nan

/-! ## Transport (src/http/databento-http.ts) -/

/-- `DATABENTO_CONFIG` from src/http/databento-http.ts. -/
structure DataBentoConfig where
  baseUrl : String
  timeout : ℕ
  retryAttempts : ℕ
  retryDelayMs : ℕ

def DATABENTO_CONFIG : DataBentoConfig :=
  { baseUrl := "https://hist.databento.com"
    timeout := 15000
    retryAttempts := 3
    retryDelayMs := 1000 }

/-- One attempt's outcome as the retry loop sees it: `.ok text` is a 2xx
response body, `.error e` is the rendered failure (non-2xx status, thrown
network error, or timeout - the loop treats them identically). -/
abbrev AttemptOracle := ℕ → Except String String

/-- Result of `makeRequest` together with its observable effects: the list of
attempt numbers tried, and the list of sleep durations (ms) performed between
attempts, in order. -/
structure RequestTrace where
  result : Except String String
  tried : List ℕ
  slept : List ℕ

/-- The retry loop body of `DataBentoHTTP.makeRequest`
(src/http/databento-http.ts:122-161): `for (attempt = 1; attempt <=
retryAttempts; attempt++)`, on failure of the final attempt throw
`DataBento API request failed after N attempts: e`, otherwise sleep
`retryDelayMs * attempt` and continue.  `fuel` counts the loop iterations
still permitted by the loop condition. -/
def makeRequestLoop (outcome : AttemptOracle) :
    ℕ → ℕ → List ℕ → List ℕ → RequestTrace
  | 0, _, tried, slept =>
      -- unreachable fall-through after the loop in the source
      ⟨Except.error "Unexpected error in DataBento request", tried, slept⟩
  | fuel + 1, attempt, tried, slept =>
      match outcome attempt with
      | Except.ok text => ⟨Except.ok text, tried ++ [attempt], slept⟩
      | Except.error e =>
          if attempt = DATABENTO_CONFIG.retryAttempts then
            ⟨Except.error ("DataBento API request failed after " ++
                toString DATABENTO_CONFIG.retryAttempts ++ " attempts: " ++ e),
              tried ++ [attempt], slept⟩
          else
            makeRequestLoop outcome fuel (attempt + 1) (tried ++ [attempt])
              (slept ++ [DATABENTO_CONFIG.retryDelayMs * attempt])

/-- `DataBentoHTTP.makeRequest`: run the retry loop from attempt 1 with the
loop bound `retryAttempts`. -/
def makeRequest (outcome : AttemptOracle) : RequestTrace :=
  makeRequestLoop outcome DATABENTO_CONFIG.retryAttempts 1 [] []

/-! ## Tabular decoder (`parseCSV`, src/http/databento-http.ts:185-205) -/

/-- `parseCSV`: trim the blob, split into lines, take the first line as the
comma-separated header, drop blank data lines, and turn each remaining line
into one record entry per header: `obj[header.trim()] =
values[index]?.trim() || ""`.  A record is modelled as the association list
of (trimmed header, value) pairs in header order (the claims never exercise
duplicate header names, where a JS object would keep the last write). -/
def parseCSV (csvText : String) : List (List (String × String)) :=
  let lines := jsSplit '\n' (jsTrim csvText)
  if lines.length = 0 then []
  else
    let headers := jsSplit ',' (lines.headD "")
    let dataLines := (lines.drop 1).filter (fun line => !(trimChars line.data).isEmpty)
    dataLines.map (fun line =>
      let values := jsSplit ',' line
      headers.enum.map (fun p =>
        (jsTrim p.2, ((values.get? p.1).map jsTrim).getD "")))

/-! ## DataBentoClient (embedded source in README.md) -/

/-- `SYMBOL_MAP`: static continuous-contract notation table. -/
def SYMBOL_MAP (s : String) : Option String :=
  if s = "ES" then some "ES.c.0"
  else if s = "NQ" then some "NQ.c.0"
  else none

/-- `CACHE_TTL = 30000` ms (30 seconds). -/
def CACHE_TTL : ℤ := 30000

/-- `QuoteData`: the Quote the client returns.  `timestamp` is the event time
in ms (from `new Date(Math.floor(ts_event / 1e6))`), `dataAge` is the ms
difference computed when the quote was constructed. -/
structure QuoteData where
  symbol : String
  price : JSNum
  bid : JSNum
  ask : JSNum
  timestamp : JSNum
  dataAge : JSNum
deriving DecidableEq

/-- A `priceCache` entry: `{ data: QuoteData; timestamp: number }` where
`timestamp` is `Date.now()` at store time. -/
structure CacheEntry where
  data : QuoteData
  timestamp : ℤ
deriving DecidableEq

/-- The `priceCache` map, keyed by symbol. -/
def Cache := String → Option CacheEntry

/-- The empty cache (no entry exists until the first successful fetch). -/
def emptyCache : Cache := fun _ => none

/-- `Map.set`: overwrite the entry for one key. -/
def cacheSet (c : Cache) (key : String) (e : CacheEntry) : Cache :=
  fun k => if k = key then some e else c k

/-- The cache-hit test at the top of `getQuote`:
`cached && Date.now() - cached.timestamp < CACHE_TTL`. -/
def cacheLookup (now : ℤ) (c : Cache) (symbol : String) : Option QuoteData :=
  match c symbol with
  | some cached => if now - cached.timestamp < CACHE_TTL then some cached.data else none
  | none => none

/-- The data-line extraction both client methods perform on a response:
`response.split("\n").slice(1).filter((line) => line.trim())`. -/
def responseDataLines (response : String) : List String :=
  ((jsSplit '\n' response).drop 1).filter (fun line => !(trimChars line.data).isEmpty)

/-- The quote constructed from the latest data line on a cache miss:
`bid_px_00` is field 13 and `ask_px_00` field 14, each fixed-point-decoded by
dividing by 1e9; `price` is the bid/ask midpoint; `timestamp` is
`ts_event` (field 1) scaled from nanoseconds to milliseconds; `dataAge` is
`Date.now() − timestamp` computed here, at construction time. -/
def quoteFromLine (now : ℤ) (symbol latestLine : String) : QuoteData :=
  let fields := jsSplit ',' latestLine
  let bidPx := jsDiv (fieldFloat fields 13) (JSNum.num 1000000000)
  let askPx := jsDiv (fieldFloat fields 14) (JSNum.num 1000000000)
  let tsEvent := fieldInt fields 1
  let price := jsDiv (jsAdd bidPx askPx) (JSNum.num 2)
  let timestamp := jsFloor (jsDiv tsEvent (JSNum.num 1000000))
  let dataAge := jsSub (JSNum.num (now : ℚ)) timestamp
  ⟨symbol, price, bidPx, askPx, timestamp, dataAge⟩

/-- `getQuote(symbol)` as a state transformer.  `now` stands for `Date.now()`
(the calls within one invocation are modelled as one instant), `fetchResult`
is the outcome of the single `makeRequest` the miss path performs (its URL
parameters - date window, schema, limit - do not affect the returned value
given the oracle and are not modelled).  Returns the call's result, the cache
after the call, and how many transport requests were issued (0 or 1). -/
def getQuote (now : ℤ) (fetchResult : Except String String) (cache : Cache)
    (symbol : String) : Except String QuoteData × Cache × ℕ :=
  match cacheLookup now cache symbol with
  | some q => (Except.ok q, cache, 0)
  | none =>
    match SYMBOL_MAP symbol with
    | none => (Except.error ("Invalid symbol: " ++ symbol), cache, 0)
    | some _ =>
      match fetchResult with
      | Except.error e => (Except.error e, cache, 1)
      | Except.ok response =>
        if response.data.isEmpty then
          (Except.error ("No quote data available for " ++ symbol), cache, 1)
        else
          match (responseDataLines response).getLast? with
          | none => (Except.error ("No recent data available for " ++ symbol), cache, 1)
          | some latestLine =>
            let quoteData := quoteFromLine now symbol latestLine
            (Except.ok quoteData, cacheSet cache symbol ⟨quoteData, now⟩, 1)

/-! ## Bar pipeline (README.md: getHistoricalBars / aggregateToH4) -/

/-- `BarData`. -/
structure BarData where
  timestamp : JSNum
  open' : JSNum
  high : JSNum
  low : JSNum
  close : JSNum
  volume : JSNum
deriving DecidableEq

instance : Inhabited BarData :=
  ⟨⟨JSNum.nan, JSNum.nan, JSNum.nan, JSNum.nan, JSNum.nan, JSNum.nan⟩⟩

/-- The requested timeframe. -/
inductive Timeframe where
  | oneHour : Timeframe
  | fourHour : Timeframe
  | oneDay : Timeframe
deriving DecidableEq

/-- One CSV data line to a `BarData`
(format: ts_event,rtype,publisher_id,instrument_id,open,high,low,close,volume). -/
def lineToBar (line : String) : BarData :=
  let fields := jsSplit ',' line
  { timestamp := jsFloor (jsDiv (fieldInt fields 0) (JSNum.num 1000000))
    open' := jsDiv (fieldFloat fields 4) (JSNum.num 1000000000)
    high := jsDiv (fieldFloat fields 5) (JSNum.num 1000000000)
    low := jsDiv (fieldFloat fields 6) (JSNum.num 1000000000)
    close := jsDiv (fieldFloat fields 7) (JSNum.num 1000000000)
    volume := fieldFloat fields 8 }

/-- JS `bars.slice(-count)` for a non-negative `count`: the last `count`
elements; `slice(-0)` is `slice(0)`, the whole array. -/
def sliceLast (count : ℕ) (l : List BarData) : List BarData :=
  if count = 0 then l else l.drop (l.length - count)

/-- The bar emitted for one chunk `b :: tail` (the loop body of
`aggregateToH4`): `timestamp`/`open` of the chunk's first bar, `Math.max` of
the highs, `Math.min` of the lows, `close` of the chunk's last bar, and
`reduce`-summed volume with initial accumulator 0. -/
def h4Bar (b : BarData) (tail : List BarData) : BarData :=
  { timestamp := b.timestamp
    open' := b.open'
    high := tail.foldl (fun m x => jsMax m x.high) b.high
    low := tail.foldl (fun m x => jsMin m x.low) b.low
    close := (tail.getLastD b).close
    volume := (b :: tail).foldl (fun s x => jsAdd s x.volume) (JSNum.num 0) }

/-- `aggregateToH4(bars)`: `for (i = 0; i < bars.length; i += 4)` take the
chunk `bars.slice(i, i + 4)` and emit one bar per chunk; a trailing chunk of
1-3 bars is still aggregated (the source's `if (chunk.length === 0) continue`
guard is unreachable because the loop index stays below the length). -/
def aggregateToH4 : List BarData → List BarData
  | [] => []
  | a :: b :: c :: d :: rest => h4Bar a [b, c, d] :: aggregateToH4 rest
  | a :: rest => [h4Bar a rest]

/-- `getHistoricalBars(symbol, timeframe, count)` given the transport outcome
as an oracle.  The date-window and schema parameters passed to the transport
do not affect the returned value given the oracle and are not modelled. -/
def getHistoricalBars (fetchResult : Except String String) (symbol : String)
    (timeframe : Timeframe) (count : ℕ) : Except String (List BarData) :=
  match SYMBOL_MAP symbol with
  | none => Except.error ("Invalid symbol: " ++ symbol)
  | some _ =>
    match fetchResult with
    | Except.error e => Except.error e
    | Except.ok response =>
      if response.data.isEmpty then
        Except.error ("No bar data available for " ++ symbol)
      else
        if (responseDataLines response).isEmpty then
          Except.error ("No bar data available for " ++ symbol)
        else
          let bars := (responseDataLines response).map lineToBar
          if timeframe = Timeframe.fourHour then
            Except.ok (aggregateToH4 bars)
          else
            Except.ok (sliceLast count bars)

/-! ## Session classifier (README.md: getSessionInfo) -/

def msPerHour : ℤ := 3600000
def msPerDay : ℤ := 86400000

/-- ECMAScript `Date.prototype.getUTCHours` on an epoch-milliseconds value:
`HourFromTime(t) = floor(t / msPerHour) modulo 24` with a non-negative
modulo, i.e. Euclidean division here. -/
def getUTCHours (t : ℤ) : ℤ :=
  (t / msPerHour) % 24

/-- `d.setUTCHours(h, 0, 0, 0)` on an epoch-milliseconds value: keep the UTC
day, set the time within the day to `h` whole hours
(`MakeTime(Day(t), h, 0, 0, 0)` with `Day(t) = floor(t / msPerDay)`). -/
def setUTCHoursZero (t : ℤ) (h : ℤ) : ℤ :=
  msPerDay * (t / msPerDay) + h * msPerHour

inductive Session where
  | Asian : Session
  | London : Session
  | NY : Session
  | Unknown : Session
deriving DecidableEq

structure SessionInfo where
  currentSession : Session
  sessionStart : ℤ
  sessionEnd : ℤ
  timestamp : ℤ
deriving DecidableEq

/-- `getSessionInfo(timestamp)`: classify by UTC hour; in the Unknown branch
`sessionStart` and `sessionEnd` are the input timestamp itself. -/
def getSessionInfo (now : ℤ) : SessionInfo :=
  let utcHour := getUTCHours now
  if 0 ≤ utcHour ∧ utcHour < 7 then
    ⟨Session.Asian, setUTCHoursZero now 0, setUTCHoursZero now 7, now⟩
  else if 7 ≤ utcHour ∧ utcHour < 14 then
    ⟨Session.London, setUTCHoursZero now 7, setUTCHoursZero now 14, now⟩
  else if 14 ≤ utcHour ∧ utcHour < 22 then
    ⟨Session.NY, setUTCHoursZero now 14, setUTCHoursZero now 22, now⟩
  else
    ⟨Session.Unknown, now, now, now⟩

/-! ## Theorems -/

section Transport

/-- C4: the transport makes at most 3 attempts in total; after each failed
non-final attempt it sleeps `attempt × 1000` ms (1 s between attempts 1→2,
2 s between attempts 2→3); if the 3rd attempt also fails it raises a terminal
error embedding the attempt count and the last failure detail; and if any
attempt succeeds the call returns that attempt's response text. -/
theorem makeRequest_retry_policy (outcome : AttemptOracle) :
    (makeRequest outcome).tried.length ≤ 3 ∧
    (∀ t, outcome 1 = Except.ok t →
      makeRequest outcome = ⟨Except.ok t, [1], []⟩) ∧
    (∀ e1 t, outcome 1 = Except.error e1 → outcome 2 = Except.ok t →
      makeRequest outcome = ⟨Except.ok t, [1, 2], [1000]⟩) ∧
    (∀ e1 e2 t, outcome 1 = Except.error e1 → outcome 2 = Except.error e2 →
      outcome 3 = Except.ok t →
      makeRequest outcome = ⟨Except.ok t, [1, 2, 3], [1000, 2000]⟩) ∧
    (∀ e1 e2 e3, outcome 1 = Except.error e1 → outcome 2 = Except.error e2 →
      outcome 3 = Except.error e3 →
      makeRequest outcome =
        ⟨Except.error ("DataBento API request failed after " ++
          toString DATABENTO_CONFIG.retryAttempts ++ " attempts: " ++ e3),
          [1, 2, 3], [1000, 2000]⟩) := by
  refine ⟨?_, ?_, ?_, ?_, ?_⟩
  · rcases h1 : outcome 1 with e1 | t1
    · rcases h2 : outcome 2 with e2 | t2
      · rcases h3 : outcome 3 with e3 | t3 <;>
          simp [makeRequest, makeRequestLoop, DATABENTO_CONFIG, h1, h2, h3]
      · simp [makeRequest, makeRequestLoop, DATABENTO_CONFIG, h1, h2]
    · simp [makeRequest, makeRequestLoop, DATABENTO_CONFIG, h1]
  · intro t h1
    simp [makeRequest, makeRequestLoop, DATABENTO_CONFIG, h1]
  · intro e1 t h1 h2
    simp [makeRequest, makeRequestLoop, DATABENTO_CONFIG, h1, h2]
  · intro e1 e2 t h1 h2 h3
    simp [makeRequest, makeRequestLoop, DATABENTO_CONFIG, h1, h2, h3]
  · intro e1 e2 e3 h1 h2 h3
    simp [makeRequest, makeRequestLoop, DATABENTO_CONFIG, h1, h2, h3]

/-- Witness for C4: a mocked transport that fails on attempts 1 and 2 and
succeeds on attempt 3 returns the success value after sleeping 1 s then 2 s. -/
theorem makeRequest_retry_policy_witness :
    makeRequest (fun n => if n = 3 then Except.ok "payload" else Except.error "boom") =
      ⟨Except.ok "payload", [1, 2, 3], [1000, 2000]⟩ ∧
    makeRequest (fun _ => Except.error "down") =
      ⟨Except.error ("DataBento API request failed after " ++
        toString DATABENTO_CONFIG.retryAttempts ++ " attempts: " ++ "down"),
        [1, 2, 3], [1000, 2000]⟩ := by
  constructor
  · exact (makeRequest_retry_policy
      (fun n => if n = 3 then Except.ok "payload" else Except.error "boom")).2.2.2.1
      "boom" "boom" "payload" (by simp) (by simp) (by simp)
  · exact (makeRequest_retry_policy (fun _ => Except.error "down")).2.2.2.2
      "down" "down" "down" rfl rfl rfl

end Transport

section Decoder

/-- `splitCharAux` never returns an empty list of pieces. -/
theorem splitCharAux_ne_nil (sep : Char) (l acc : List Char) :
    splitCharAux sep l acc ≠ [] := by
  induction l generalizing acc with
  | nil => simp [splitCharAux]
  | cons c cs ih =>
      simp only [splitCharAux]
      split
      · simp
      · exact ih _

/-- `s.split(sep)` never returns an empty list of pieces. -/
theorem jsSplit_ne_nil (sep : Char) (s : String) : jsSplit sep s ≠ [] := by
  simp [jsSplit, splitCharAux_ne_nil]

/-- C8: `parseCSV` drops blank lines, decodes a header-only input to an empty
sequence rather than an error, trims header names and field values, pads rows
shorter than the header with empty strings so every decoded record carries
every header field, and ignores values beyond the header length (each record
has exactly one entry per header, in header order). -/
theorem parseCSV_decoding_rules (csvText : String) :
    (parseCSV csvText).length =
      (((jsSplit '\n' (jsTrim csvText)).drop 1).filter
        (fun line => !(trimChars line.data).isEmpty)).length ∧
    ((((jsSplit '\n' (jsTrim csvText)).drop 1).filter
        (fun line => !(trimChars line.data).isEmpty)) = [] → parseCSV csvText = []) ∧
    (∀ rec ∈ parseCSV csvText,
      rec.map Prod.fst =
        (jsSplit ',' ((jsSplit '\n' (jsTrim csvText)).headD "")).map jsTrim) ∧
    (∀ j line,
      (((jsSplit '\n' (jsTrim csvText)).drop 1).filter
        (fun line => !(trimChars line.data).isEmpty)).get? j = some line →
      ∀ i h, (jsSplit ',' ((jsSplit '\n' (jsTrim csvText)).headD "")).get? i = some h →
        ∃ rec, (parseCSV csvText).get? j = some rec ∧
          rec.get? i = some (jsTrim h, (((jsSplit ',' line).get? i).map jsTrim).getD "")) := by
  have hne : (jsSplit '\n' (jsTrim csvText)).length ≠ 0 := by
    simpa using jsSplit_ne_nil '\n' (jsTrim csvText)
  refine ⟨?_, ?_, ?_, ?_⟩
  · simp [parseCSV, hne]
  · intro hempty
    simp only [parseCSV, if_neg hne]
    rw [hempty]
    rfl
  · intro rec hrec
    simp only [parseCSV, hne, if_neg hne] at hrec
    obtain ⟨line, _, rfl⟩ := List.mem_map.mp hrec
    rw [List.map_map]
    have : (Prod.fst ∘ fun p : ℕ × String =>
        (jsTrim p.2, ((( jsSplit ',' line).get? p.1).map jsTrim).getD "")) =
        (fun p : ℕ × String => jsTrim p.2) := rfl
    rw [this]
    have hsnd := List.enum_map_snd
      (jsSplit ',' ((jsSplit '\n' (jsTrim csvText)).headD ""))
    calc ((jsSplit ',' ((jsSplit '\n' (jsTrim csvText)).headD "")).enum.map
            (fun p : ℕ × String => jsTrim p.2))
        = ((jsSplit ',' ((jsSplit '\n' (jsTrim csvText)).headD "")).enum.map
            Prod.snd).map jsTrim := by rw [List.map_map]; rfl
      _ = (jsSplit ',' ((jsSplit '\n' (jsTrim csvText)).headD "")).map jsTrim := by
            rw [hsnd]
  · intro j line hline i h hh
    refine ⟨(jsSplit ',' ((jsSplit '\n' (jsTrim csvText)).headD "")).enum.map
      (fun p => (jsTrim p.2, (((jsSplit ',' line).get? p.1).map jsTrim).getD "")), ?_, ?_⟩
    · simp only [parseCSV, if_neg hne]
      rw [List.get?_map, hline]
      rfl
    · rw [List.get?_map, List.get?_enum, hh]
      rfl

end Decoder

/-- Witness for C8: on `"a, b\n 1 \n\n2,3,4"` the blank line is dropped, the
short row `" 1 "` is trimmed and padded so that the second header field `" b"`
(trimmed to `"b"`) is present with value `""`. -/
theorem parseCSV_decoding_rules_witness :
    (parseCSV "a, b\n 1 \n\n2,3,4").length = 2 ∧
    (∃ rec, (parseCSV "a, b\n 1 \n\n2,3,4").get? 0 = some rec ∧
      rec.get? 1 = some ("b", "")) := by
  have h1 : (((jsSplit '\n' (jsTrim "a, b\n 1 \n\n2,3,4")).drop 1).filter
      (fun line => !(trimChars line.data).isEmpty)).get? 0 = some " 1 " := by rfl
  have h2 : (jsSplit ',' ((jsSplit '\n' (jsTrim "a, b\n 1 \n\n2,3,4")).headD "")).get? 1 =
      some " b" := by rfl
  obtain ⟨rec, hr1, hr2⟩ :=
    (parseCSV_decoding_rules "a, b\n 1 \n\n2,3,4").2.2.2 0 " 1 " h1 1 " b" h2
  refine ⟨?_, rec, hr1, ?_⟩
  · have := (parseCSV_decoding_rules "a, b\n 1 \n\n2,3,4").1
    rw [this]
    rfl
  · rw [hr2]
    rfl

section Aggregation

/-- One aggregated bar as the spec describes a group: `open`/`timestamp` from
the group's first bar, max of highs, min of lows, `close` from the group's
last bar, summed volume (empty groups never occur; they map to the default
bar). -/
def h4Spec (g : List BarData) : BarData :=
  match g with
  | [] => default
  | b :: tail => h4Bar b tail

/-- The number of aggregated bars is `⌈n / 4⌉`. -/
theorem aggregateToH4_length (l : List BarData) :
    (aggregateToH4 l).length = (l.length + 3) / 4 := by
  induction l using aggregateToH4.induct with
  | case1 => rfl
  | case2 a b c d rest ih =>
      simp only [aggregateToH4, List.length_cons, ih]
      omega
  | case3 a rest h =>
      rcases rest with _ | ⟨x, _ | ⟨y, _ | ⟨z, zs⟩⟩⟩
      · simp [aggregateToH4]
      · simp [aggregateToH4]
      · simp [aggregateToH4]
      · exact (h x y z zs rfl).elim

/-- The `k`-th aggregated bar is the aggregate of the `k`-th consecutive
4-group of the input, in original order. -/
theorem aggregateToH4_get? (l : List BarData) :
    ∀ k, 4 * k < l.length →
      (aggregateToH4 l).get? k = some (h4Spec ((l.drop (4 * k)).take 4)) := by
  induction l using aggregateToH4.induct with
  | case1 =>
      intro k hk
      simp at hk
  | case2 a b c d rest ih =>
      intro k hk
      cases k with
      | zero => rfl
      | succ k =>
          have hlen : 4 * k < rest.length := by
            simp only [List.length_cons] at hk
            omega
          have hdrop : (a :: b :: c :: d :: rest).drop (4 * (k + 1)) =
              rest.drop (4 * k) := by
            have h4 : 4 * (k + 1) = 4 * k + 1 + 1 + 1 + 1 := by ring
            rw [h4]
            rfl
          calc (aggregateToH4 (a :: b :: c :: d :: rest)).get? (k + 1)
              = (aggregateToH4 rest).get? k := rfl
            _ = some (h4Spec ((rest.drop (4 * k)).take 4)) := ih k hlen
            _ = some (h4Spec (((a :: b :: c :: d :: rest).drop (4 * (k + 1))).take 4)) := by
                rw [hdrop]
  | case3 a rest h =>
      intro k hk
      have hlen : rest.length ≤ 2 := by
        rcases rest with _ | ⟨x, _ | ⟨y, _ | ⟨z, zs⟩⟩⟩
        · simp
        · simp
        · simp
        · exact (h x y z zs rfl).elim
      have hk0 : k = 0 := by
        simp only [List.length_cons] at hk
        omega
      subst hk0
      rcases rest with _ | ⟨x, _ | ⟨y, _ | ⟨z, zs⟩⟩⟩
      · simp [aggregateToH4, h4Spec]
      · simp [aggregateToH4, h4Spec]
      · simp [aggregateToH4, h4Spec]
      · exact (h x y z zs rfl).elim

/-- C5: aggregating 1-hour bars to 4-hour bars partitions the input into
consecutive groups of 4 in original order (the trailing group of 1-3 bars is
still aggregated), produces exactly `⌈n / 4⌉` bars, and each output bar
carries the group's first open, `Math.max` of highs, `Math.min` of lows, last
close, and summed volume (see `h4Bar`/`h4Spec`). -/
theorem aggregateToH4_partition (l : List BarData) :
    (aggregateToH4 l).length = (l.length + 3) / 4 ∧
    (∀ k, 4 * k < l.length →
      (aggregateToH4 l).get? k = some (h4Spec ((l.drop (4 * k)).take 4))) :=
  ⟨aggregateToH4_length l, aggregateToH4_get? l⟩

/-- A concrete 5-bar list for the aggregation and pipeline witnesses. -/
def sampleBar (i : ℕ) : BarData :=
  { timestamp := JSNum.num i
    open' := JSNum.num (100 + i)
    high := JSNum.num (200 + i)
    low := JSNum.num (50 + i)
    close := JSNum.num (150 + i)
    volume := JSNum.num (1000 + i) }

/-- Witness for C5: 5 bars aggregate to `⌈5 / 4⌉ = 2` bars; the second group
is the trailing 1-bar group. -/
theorem aggregateToH4_partition_witness :
    (aggregateToH4 ((List.range 5).map sampleBar)).length = 2 ∧
    (aggregateToH4 ((List.range 5).map sampleBar)).get? 1 =
      some (h4Spec (((((List.range 5).map sampleBar)).drop 4).take 4)) := by
  constructor
  · rw [(aggregateToH4_partition ((List.range 5).map sampleBar)).1]
    rfl
  · exact (aggregateToH4_partition ((List.range 5).map sampleBar)).2 1 (by simp)

end Aggregation

section BarPipeline

/-- For a positive requested count, `slice(-count)` keeps the last
`min count n` bars. -/
theorem sliceLast_length (count : ℕ) (l : List BarData) (hc : count ≠ 0) :
    (sliceLast count l).length = min count l.length := by
  simp only [sliceLast, if_neg hc, List.length_drop]
  omega

/-- C1 (amended): on a successful fetch with a non-empty decoded row set,
`getHistoricalBars` returns the last `count` bars (all of them when fewer
exist, no padding and no error) for the `1h` and `1d` timeframes; for `H4` it
returns the entire aggregated sequence of `⌈n / 4⌉` bars without truncating
to `count`. -/
theorem getHistoricalBars_selection (response symbol ds : String)
    (timeframe : Timeframe) (count : ℕ)
    (hsym : SYMBOL_MAP symbol = some ds)
    (hresp : response.data.isEmpty = false)
    (hdata : (responseDataLines response).isEmpty = false) :
    (timeframe ≠ Timeframe.fourHour →
      getHistoricalBars (Except.ok response) symbol timeframe count =
        Except.ok (sliceLast count ((responseDataLines response).map lineToBar))) ∧
    (timeframe = Timeframe.fourHour →
      getHistoricalBars (Except.ok response) symbol timeframe count =
        Except.ok (aggregateToH4 ((responseDataLines response).map lineToBar))) ∧
    (count ≠ 0 →
      (sliceLast count ((responseDataLines response).map lineToBar)).length =
        min count (responseDataLines response).length) := by
  refine ⟨?_, ?_, ?_⟩
  · intro hne
    simp [getHistoricalBars, hsym, hresp, hdata, hne]
  · intro heq
    subst heq
    simp [getHistoricalBars, hsym, hresp, hdata]
  · intro hc
    rw [sliceLast_length count _ hc, List.length_map]

/-- A 12-row bar response: header line plus 12 identical well-formed rows
with `volume = 5`. -/
def csvBars12 : String :=
  "h\n0,0,0,0,1,2,3,4,5\n0,0,0,0,1,2,3,4,5\n0,0,0,0,1,2,3,4,5\n" ++
  "0,0,0,0,1,2,3,4,5\n0,0,0,0,1,2,3,4,5\n0,0,0,0,1,2,3,4,5\n" ++
  "0,0,0,0,1,2,3,4,5\n0,0,0,0,1,2,3,4,5\n0,0,0,0,1,2,3,4,5\n" ++
  "0,0,0,0,1,2,3,4,5\n0,0,0,0,1,2,3,4,5\n0,0,0,0,1,2,3,4,5"

/-- Counterexample to C1 as stated: against 12 decoded 1-hour bars,
`getHistoricalBars(NQ, H4, 2)` returns all `⌈12 / 4⌉ = 3` aggregated bars,
not the last 2 — the H4 path never truncates to `count`. -/
theorem getHistoricalBars_H4_no_truncation_counterexample :
    (getHistoricalBars (Except.ok csvBars12) "NQ" Timeframe.fourHour 2).map
        List.length = Except.ok 3 ∧ (3 : ℕ) ≠ 2 := by
  constructor
  · rfl
  · decide

/-- An 8-row bar response (volumes 1..8 in field 8). -/
def csvBars8 : String :=
  "h\n0,0,0,0,1,2,3,4,1\n0,0,0,0,1,2,3,4,2\n0,0,0,0,1,2,3,4,3\n" ++
  "0,0,0,0,1,2,3,4,4\n0,0,0,0,1,2,3,4,5\n0,0,0,0,1,2,3,4,6\n" ++
  "0,0,0,0,1,2,3,4,7\n0,0,0,0,1,2,3,4,8"

/-- Witness for C1 (amended): with 8 one-hour rows and `count = 2` the H4
path returns the full aggregated sequence, which here has exactly
`⌈8 / 4⌉ = 2` bars, with the group volumes summed (1+2+3+4 = 10 and
5+6+7+8 = 26); with `count = 2` on the 1h path the last 2 bars are kept. -/
theorem getHistoricalBars_selection_witness :
    getHistoricalBars (Except.ok csvBars8) "NQ" Timeframe.fourHour 2 =
      Except.ok (aggregateToH4 ((responseDataLines csvBars8).map lineToBar)) ∧
    (getHistoricalBars (Except.ok csvBars8) "NQ" Timeframe.fourHour 2).map
      List.length = Except.ok 2 ∧
    ((aggregateToH4 ((responseDataLines csvBars8).map lineToBar)).map
      BarData.volume) = [JSNum.num 10, JSNum.num 26] ∧
    getHistoricalBars (Except.ok csvBars8) "NQ" Timeframe.oneHour 2 =
      Except.ok (sliceLast 2 ((responseDataLines csvBars8).map lineToBar)) := by
  have hmain := getHistoricalBars_selection csvBars8 "NQ" "NQ.c.0"
    Timeframe.fourHour 2 rfl rfl rfl
  have h1h := getHistoricalBars_selection csvBars8 "NQ" "NQ.c.0"
    Timeframe.oneHour 2 rfl rfl rfl
  refine ⟨hmain.2.1 rfl, ?_, ?_, h1h.1 (by simp)⟩
  · rw [hmain.2.1 rfl]
    rfl
  · have hagg : (aggregateToH4 ((responseDataLines csvBars8).map lineToBar)) =
        [h4Bar (lineToBar "0,0,0,0,1,2,3,4,1")
          [lineToBar "0,0,0,0,1,2,3,4,2", lineToBar "0,0,0,0,1,2,3,4,3",
           lineToBar "0,0,0,0,1,2,3,4,4"],
         h4Bar (lineToBar "0,0,0,0,1,2,3,4,5")
          [lineToBar "0,0,0,0,1,2,3,4,6", lineToBar "0,0,0,0,1,2,3,4,7",
           lineToBar "0,0,0,0,1,2,3,4,8"]] := rfl
    rw [hagg]
    simp [h4Bar, lineToBar, fieldFloat, jsSplit, splitCharAux, parseFloatJS,
      trimChars, isJsSpace, digitsVal, jsAdd]
    norm_num

section SessionClassifier

/-- The UTC hour of any timestamp lies in `[0, 24)`. -/
theorem getUTCHours_range (t : ℤ) : 0 ≤ getUTCHours t ∧ getUTCHours t < 24 := by
  simp only [getUTCHours, msPerHour]
  omega

/-- Asian branch of `getSessionInfo`. -/
theorem getSessionInfo_asian (t : ℤ) (h : getUTCHours t < 7) :
    getSessionInfo t = ⟨Session.Asian, setUTCHoursZero t 0, setUTCHoursZero t 7, t⟩ := by
  simp only [getSessionInfo]
  rw [if_pos ⟨(getUTCHours_range t).1, h⟩]

/-- London branch of `getSessionInfo`. -/
theorem getSessionInfo_london (t : ℤ) (h7 : 7 ≤ getUTCHours t)
    (h14 : getUTCHours t < 14) :
    getSessionInfo t = ⟨Session.London, setUTCHoursZero t 7, setUTCHoursZero t 14, t⟩ := by
  simp only [getSessionInfo]
  rw [if_neg (by omega), if_pos ⟨h7, h14⟩]

/-- NY branch of `getSessionInfo`. -/
theorem getSessionInfo_ny (t : ℤ) (h14 : 14 ≤ getUTCHours t)
    (h22 : getUTCHours t < 22) :
    getSessionInfo t = ⟨Session.NY, setUTCHoursZero t 14, setUTCHoursZero t 22, t⟩ := by
  simp only [getSessionInfo]
  rw [if_neg (by omega), if_neg (by omega), if_pos ⟨h14, h22⟩]

/-- Unknown branch of `getSessionInfo`: both session bounds collapse to the
input timestamp. -/
theorem getSessionInfo_unknown (t : ℤ) (h : 22 ≤ getUTCHours t) :
    getSessionInfo t = ⟨Session.Unknown, t, t, t⟩ := by
  simp only [getSessionInfo]
  rw [if_neg (by omega), if_neg (by omega), if_neg (by omega)]

/-- C7: `getSessionInfo` is a total function of the timestamp covering every
UTC hour with no gaps or overlaps: hours `[0,7)` map to Asian with bounds
00:00-07:00 of that UTC day, `[7,14)` to London (07:00-14:00), `[14,22)` to
NY (14:00-22:00), and `[22,24)` to Unknown with `sessionStart` and
`sessionEnd` both equal to the input timestamp itself. -/
theorem getSessionInfo_total_mapping (t : ℤ) :
    (0 ≤ getUTCHours t ∧ getUTCHours t < 24) ∧
    (getUTCHours t < 7 →
      getSessionInfo t = ⟨Session.Asian, setUTCHoursZero t 0, setUTCHoursZero t 7, t⟩) ∧
    (7 ≤ getUTCHours t → getUTCHours t < 14 →
      getSessionInfo t = ⟨Session.London, setUTCHoursZero t 7, setUTCHoursZero t 14, t⟩) ∧
    (14 ≤ getUTCHours t → getUTCHours t < 22 →
      getSessionInfo t = ⟨Session.NY, setUTCHoursZero t 14, setUTCHoursZero t 22, t⟩) ∧
    (22 ≤ getUTCHours t → getSessionInfo t = ⟨Session.Unknown, t, t, t⟩) :=
  ⟨getUTCHours_range t, getSessionInfo_asian t, getSessionInfo_london t,
    getSessionInfo_ny t, getSessionInfo_unknown t⟩

/-- Witness for C7: at 2021-01-01T22:00:00Z (epoch ms 1609538400000) the UTC
hour is 22, the session is Unknown and both bounds equal the input; at
2021-01-01T00:00:00Z the session is Asian with bounds 00:00 and 07:00 of
that day. -/
theorem getSessionInfo_total_mapping_witness :
    getSessionInfo 1609538400000 =
      ⟨Session.Unknown, 1609538400000, 1609538400000, 1609538400000⟩ ∧
    getSessionInfo 1609459200000 =
      ⟨Session.Asian, 1609459200000, 1609459200000 + 7 * 3600000, 1609459200000⟩ := by
  constructor
  · exact (getSessionInfo_total_mapping 1609538400000).2.2.2.2 (by decide)
  · have h := (getSessionInfo_total_mapping 1609459200000).2.1 (by decide)
    rw [h]
    decide

/-- C10: for every timestamp whose UTC hour lies in `[0, 22)` the returned
session bounds satisfy `sessionStart ≤ t < sessionEnd`, and both bounds fall
on the same UTC calendar day as the input (`getSessionInfo` is a total
function, so no input can make it fail). -/
theorem getSessionInfo_bounds_invariant (t : ℤ) (h : getUTCHours t < 22) :
    (getSessionInfo t).sessionStart ≤ t ∧
    t < (getSessionInfo t).sessionEnd ∧
    (getSessionInfo t).sessionStart / msPerDay = t / msPerDay ∧
    (getSessionInfo t).sessionEnd / msPerDay = t / msPerDay ∧
    (getSessionInfo t).timestamp = t := by
  have h0 := (getUTCHours_range t).1
  rcases lt_or_le (getUTCHours t) 7 with h7 | h7
  · rw [getSessionInfo_asian t h7]
    simp only [setUTCHoursZero, msPerDay, msPerHour]
    simp only [getUTCHours, msPerHour] at h7 h0
    refine ⟨by omega, by omega, by omega, by omega, trivial⟩
  · rcases lt_or_le (getUTCHours t) 14 with h14 | h14
    · rw [getSessionInfo_london t h7 h14]
      simp only [setUTCHoursZero, msPerDay, msPerHour]
      simp only [getUTCHours, msPerHour] at h7 h14
      refine ⟨by omega, by omega, by omega, by omega, trivial⟩
    · rw [getSessionInfo_ny t h14 h]
      simp only [setUTCHoursZero, msPerDay, msPerHour]
      simp only [getUTCHours, msPerHour] at h14 h
      refine ⟨by omega, by omega, by omega, by omega, trivial⟩

/-- Witness for C10: at 2021-01-01T15:30:00Z (NY session) the bounds bracket
the input and share its UTC day. -/
theorem getSessionInfo_bounds_invariant_witness :
    (getSessionInfo 1609515000000).sessionStart ≤ 1609515000000 ∧
    1609515000000 < (getSessionInfo 1609515000000).sessionEnd ∧
    (getSessionInfo 1609515000000).sessionStart / msPerDay = 1609515000000 / msPerDay ∧
    (getSessionInfo 1609515000000).sessionEnd / msPerDay = 1609515000000 / msPerDay ∧
    (getSessionInfo 1609515000000).timestamp = 1609515000000 :=
  getSessionInfo_bounds_invariant 1609515000000 (by decide)

end SessionClassifier

section QuoteCache

/-- A fresh entry (strictly less than TTL old) is returned by the hit test. -/
theorem cacheLookup_fresh (now : ℤ) (cache : Cache) (symbol : String)
    (c : CacheEntry) (h : cache symbol = some c)
    (hf : now - c.timestamp < CACHE_TTL) :
    cacheLookup now cache symbol = some c.data := by
  simp [cacheLookup, h, hf]

/-- An entry at least TTL old fails the hit test. -/
theorem cacheLookup_stale (now : ℤ) (cache : Cache) (symbol : String)
    (c : CacheEntry) (h : cache symbol = some c)
    (hs : CACHE_TTL ≤ now - c.timestamp) :
    cacheLookup now cache symbol = none := by
  simp [cacheLookup, h]
  omega

/-- A cache hit returns the cached quote without touching the network or the
cache. -/
theorem getQuote_hit (now : ℤ) (fetch : Except String String) (cache : Cache)
    (symbol : String) (q : QuoteData) (h : cacheLookup now cache symbol = some q) :
    getQuote now fetch cache symbol = (Except.ok q, cache, 0) := by
  simp [getQuote, h]

/-- On a cache miss with a valid symbol and a successful fetch whose decoded
row set is non-empty, `getQuote` returns the quote built from the last data
line, stores it under the symbol with `storedAt = now`, and has issued
exactly one transport request. -/
theorem getQuote_miss_success (now : ℤ) (cache : Cache)
    (symbol ds response latestLine : String)
    (hmiss : cacheLookup now cache symbol = none)
    (hsym : SYMBOL_MAP symbol = some ds)
    (hresp : response.data.isEmpty = false)
    (hlast : (responseDataLines response).getLast? = some latestLine) :
    getQuote now (Except.ok response) cache symbol =
      (Except.ok (quoteFromLine now symbol latestLine),
        cacheSet cache symbol ⟨quoteFromLine now symbol latestLine, now⟩, 1) := by
  simp [getQuote, hmiss, hsym, hresp, hlast]

/-- On a cache miss with a valid symbol, exactly one transport request is
issued whatever the fetch outcome. -/
theorem getQuote_miss_fetch_count (now : ℤ) (fetch : Except String String)
    (cache : Cache) (symbol ds : String)
    (hmiss : cacheLookup now cache symbol = none)
    (hsym : SYMBOL_MAP symbol = some ds) :
    (getQuote now fetch cache symbol).2.2 = 1 := by
  cases fetch with
  | error e => simp [getQuote, hmiss, hsym]
  | ok response =>
      cases hresp : response.data.isEmpty with
      | true => simp [getQuote, hmiss, hsym, hresp]
      | false =>
          cases hlast : (responseDataLines response).getLast? with
          | none => simp [getQuote, hmiss, hsym, hresp, hlast]
          | some latestLine => simp [getQuote, hmiss, hsym, hresp, hlast]

/-- C3: a cache entry stored strictly less than 30 s (TTL) before the call is
returned as-is with no transport request and no cache modification; an entry
at least 30 s old is no longer usable: the next call performs exactly one
fetch, and on success overwrites the entry for that symbol. -/
theorem getQuote_ttl_policy (now : ℤ) (fetch : Except String String)
    (cache : Cache) (symbol ds : String) :
    (∀ c, cache symbol = some c → now - c.timestamp < CACHE_TTL →
      getQuote now fetch cache symbol = (Except.ok c.data, cache, 0)) ∧
    (∀ c, cache symbol = some c → CACHE_TTL ≤ now - c.timestamp →
      SYMBOL_MAP symbol = some ds →
      (getQuote now fetch cache symbol).2.2 = 1) ∧
    (∀ c response latestLine, cache symbol = some c →
      CACHE_TTL ≤ now - c.timestamp → SYMBOL_MAP symbol = some ds →
      response.data.isEmpty = false →
      (responseDataLines response).getLast? = some latestLine →
      getQuote now (Except.ok response) cache symbol =
        (Except.ok (quoteFromLine now symbol latestLine),
          cacheSet cache symbol ⟨quoteFromLine now symbol latestLine, now⟩, 1)) := by
  refine ⟨?_, ?_, ?_⟩
  · intro c hc hf
    exact getQuote_hit now fetch cache symbol c.data
      (cacheLookup_fresh now cache symbol c hc hf)
  · intro c hc hs hsym
    exact getQuote_miss_fetch_count now fetch cache symbol ds
      (cacheLookup_stale now cache symbol c hc hs) hsym
  · intro c response latestLine hc hs hsym hresp hlast
    exact getQuote_miss_success now cache symbol ds response latestLine
      (cacheLookup_stale now cache symbol c hc hs) hsym hresp hlast

/-- A demonstration quote and cache for the C3 witness. -/
def demoQuote : QuoteData :=
  ⟨"ES", JSNum.num 1, JSNum.num 1, JSNum.num 1, JSNum.num 0, JSNum.num 0⟩

def demoCache : Cache :=
  cacheSet emptyCache "ES" ⟨demoQuote, 100⟩

/-- The mocked top-of-book response used by the quote witnesses: the last
data line has `ts_event = 500000000000` ns (field 1),
`bid_px_00 = 4500000000000` (field 13) and `ask_px_00 = 4502000000000`
(field 14). -/
def csvQuote : String :=
  "ts_recv,ts_event,rtype,publisher_id,instrument_id,action,side,depth," ++
  "price,size,flags,ts_in_delta,sequence,bid_px_00,ask_px_00,bid_sz_00,ask_sz_00\n" ++
  "1234567890123456,500000000000,1,1,1234,A,B,0,0,0,0,0,0," ++
  "4500000000000,4502000000000,10,15"

/-- Witness for C3: at `now = 200` the 100 ms old entry is served from cache
with zero fetches; at `now = 40100` the same entry is 40000 ms old, so the
call fetches once and overwrites the entry. -/
theorem getQuote_ttl_policy_witness :
    getQuote 200 (Except.error "unused") demoCache "ES" =
      (Except.ok demoQuote, demoCache, 0) ∧
    (getQuote 40100 (Except.ok csvQuote) demoCache "ES").2.2 = 1 ∧
    getQuote 40100 (Except.ok csvQuote) demoCache "ES" =
      (Except.ok (quoteFromLine 40100 "ES"
          ("1234567890123456,500000000000,1,1,1234,A,B,0,0,0,0,0,0," ++
            "4500000000000,4502000000000,10,15")),
        cacheSet demoCache "ES"
          ⟨quoteFromLine 40100 "ES"
            ("1234567890123456,500000000000,1,1,1234,A,B,0,0,0,0,0,0," ++
              "4500000000000,4502000000000,10,15"), 40100⟩, 1) := by
  refine ⟨?_, ?_, ?_⟩
  · exact (getQuote_ttl_policy 200 (Except.error "unused") demoCache "ES" "ES.c.0").1
      ⟨demoQuote, 100⟩ rfl (by decide)
  · exact (getQuote_ttl_policy 40100 (Except.ok csvQuote) demoCache "ES" "ES.c.0").2.1
      ⟨demoQuote, 100⟩ rfl (by decide) rfl
  · exact (getQuote_ttl_policy 40100 (Except.ok csvQuote) demoCache "ES" "ES.c.0").2.2
      ⟨demoQuote, 100⟩ csvQuote
      ("1234567890123456,500000000000,1,1,1234,A,B,0,0,0,0,0,0," ++
        "4500000000000,4502000000000,10,15")
      rfl (by decide) rfl rfl rfl

end QuoteCache

/-- C2 (amended): `dataAge` is computed once, at fetch (cache-miss) time, as
`now − timestamp`, and is stored inside the cached quote; a fresh cache hit
returns the stored quote verbatim — including its stored `dataAge` — rather
than recomputing `now − timestamp` at read time. -/
theorem getQuote_dataAge_stored (now : ℤ) (fetch : Except String String)
    (cache : Cache) (symbol ds : String) :
    (∀ c, cache symbol = some c → now - c.timestamp < CACHE_TTL →
      (getQuote now fetch cache symbol).1 = Except.ok c.data) ∧
    (∀ latestLine, (quoteFromLine now symbol latestLine).dataAge =
      jsSub (JSNum.num (now : ℚ)) (quoteFromLine now symbol latestLine).timestamp) ∧
    (∀ response latestLine, cacheLookup now cache symbol = none →
      SYMBOL_MAP symbol = some ds → response.data.isEmpty = false →
      (responseDataLines response).getLast? = some latestLine →
      (getQuote now (Except.ok response) cache symbol).2.1 symbol =
        some ⟨quoteFromLine now symbol latestLine, now⟩) := by
  refine ⟨?_, ?_, ?_⟩
  · intro c hc hf
    rw [getQuote_hit now fetch cache symbol c.data
      (cacheLookup_fresh now cache symbol c hc hf)]
  · intro latestLine
    rfl
  · intro response latestLine hmiss hsym hresp hlast
    rw [getQuote_miss_success now cache symbol ds response latestLine
      hmiss hsym hresp hlast]
    simp [cacheSet]

/-- The data line of `csvQuote`. -/
def csvQuoteRow : String :=
  "1234567890123456,500000000000,1,1,1234,A,B,0,0,0,0,0,0," ++
  "4500000000000,4502000000000,10,15"

/-- The cache after a first `getQuote("ES")` at `now = 1000000` against
`csvQuote` (whose `ts_event` decodes to 500000 ms). -/
def cacheAfterQuote : Cache :=
  (getQuote 1000000 (Except.ok csvQuote) emptyCache "ES").2.1

/-- Counterexample to C2 as stated: a cache-hit read at `now = 1010000`
returns `dataAge = 500000` ms — the value computed and stored when the quote
was fetched at `now = 1000000` — not `1010000 − 500000 = 510000` ms as a
read-time derivation would give. -/
theorem getQuote_dataAge_stale_counterexample :
    Except.map QuoteData.dataAge
      ((getQuote 1010000 (Except.error "unused") cacheAfterQuote "ES").1) =
      Except.ok (JSNum.num 500000) ∧
    JSNum.num 500000 ≠ JSNum.num ((1010000 : ℚ) - 500000) := by
  have hentry : cacheAfterQuote "ES" =
      some ⟨quoteFromLine 1000000 "ES" csvQuoteRow, 1000000⟩ := rfl
  have hhit := getQuote_hit 1010000 (Except.error "unused") cacheAfterQuote "ES"
    (quoteFromLine 1000000 "ES" csvQuoteRow)
    (cacheLookup_fresh 1010000 cacheAfterQuote "ES"
      ⟨quoteFromLine 1000000 "ES" csvQuoteRow, 1000000⟩ hentry (by decide))
  constructor
  · rw [hhit]
    have : (quoteFromLine 1000000 "ES" csvQuoteRow).dataAge = JSNum.num 500000 := by
      simp [quoteFromLine, csvQuoteRow, fieldInt, parseIntJS, jsSplit, splitCharAux,
        trimChars, isJsSpace, digitsVal, jsDiv, jsFloor, jsSub]
      norm_num
    simp [Except.map, this]
  · simp only [ne_eq, JSNum.num.injEq]
    norm_num

/-- C6: on a cache miss, `getQuote` takes the last decoded data row, decodes
`bid_px_00` (field 13) and `ask_px_00` (field 14) by dividing the scaled
integer by 1e9, and returns a quote whose price is the bid/ask midpoint. -/
theorem getQuote_fixed_point_decoding (now : ℤ) (cache : Cache)
    (symbol ds response latestLine : String) (b a : ℚ)
    (hmiss : cacheLookup now cache symbol = none)
    (hsym : SYMBOL_MAP symbol = some ds)
    (hresp : response.data.isEmpty = false)
    (hlast : (responseDataLines response).getLast? = some latestLine)
    (hbid : fieldFloat (jsSplit ',' latestLine) 13 = JSNum.num b)
    (hask : fieldFloat (jsSplit ',' latestLine) 14 = JSNum.num a) :
    (quoteFromLine now symbol latestLine).bid = JSNum.num (b / 1000000000) ∧
    (quoteFromLine now symbol latestLine).ask = JSNum.num (a / 1000000000) ∧
    (quoteFromLine now symbol latestLine).price =
      JSNum.num ((b / 1000000000 + a / 1000000000) / 2) ∧
    (getQuote now (Except.ok response) cache symbol).1 =
      Except.ok (quoteFromLine now symbol latestLine) := by
  refine ⟨?_, ?_, ?_, ?_⟩
  · simp [quoteFromLine, hbid, jsDiv]
  · simp [quoteFromLine, hask, jsDiv]
  · simp [quoteFromLine, hbid, hask, jsDiv, jsAdd]
  · rw [getQuote_miss_success now cache symbol ds response latestLine
      hmiss hsym hresp hlast]

/-- Witness for C6: the claim's end-to-end example - a response whose last row
has `bid_px_00 = 4500000000000` and `ask_px_00 = 4502000000000` yields
`bid = 4500`, `ask = 4502`, `price = 4501`. -/
theorem getQuote_fixed_point_decoding_witness :
    (quoteFromLine 0 "ES" csvQuoteRow).bid = JSNum.num 4500 ∧
    (quoteFromLine 0 "ES" csvQuoteRow).ask = JSNum.num 4502 ∧
    (quoteFromLine 0 "ES" csvQuoteRow).price = JSNum.num 4501 ∧
    (getQuote 0 (Except.ok csvQuote) emptyCache "ES").1 =
      Except.ok (quoteFromLine 0 "ES" csvQuoteRow) := by
  have hbid : fieldFloat (jsSplit ',' csvQuoteRow) 13 =
      JSNum.num 4500000000000 := by
    simp [csvQuoteRow, fieldFloat, jsSplit, splitCharAux, parseFloatJS,
      trimChars, isJsSpace, digitsVal]
  have hask : fieldFloat (jsSplit ',' csvQuoteRow) 14 =
      JSNum.num 4502000000000 := by
    simp [csvQuoteRow, fieldFloat, jsSplit, splitCharAux, parseFloatJS,
      trimChars, isJsSpace, digitsVal]
  have h := getQuote_fixed_point_decoding 0 emptyCache "ES" "ES.c.0" csvQuote
    csvQuoteRow 4500000000000 4502000000000 rfl rfl rfl rfl hbid hask
  refine ⟨?_, ?_, ?_, h.2.2.2⟩
  · rw [h.1]
    norm_num
  · rw [h.2.1]
    norm_num
  · rw [h.2.2.1]
    norm_num

/-- C9: a `getQuote(s)` call modifies at most the cache entry for `s` - every
other symbol's entry is untouched - and it modifies the cache only when the
call returns successfully: on any error the whole cache is exactly as before
the call. -/
theorem getQuote_cache_frame (now : ℤ) (fetch : Except String String)
    (cache : Cache) (symbol : String) :
    (∀ s2, s2 ≠ symbol → (getQuote now fetch cache symbol).2.1 s2 = cache s2) ∧
    (∀ e, (getQuote now fetch cache symbol).1 = Except.error e →
      (getQuote now fetch cache symbol).2.1 = cache) := by
  constructor
  · intro s2 hs2
    cases hcl : cacheLookup now cache symbol with
    | some q => simp [getQuote, hcl]
    | none =>
        cases hsm : SYMBOL_MAP symbol with
        | none => simp [getQuote, hcl, hsm]
        | some ds =>
            cases fetch with
            | error e => simp [getQuote, hcl, hsm]
            | ok response =>
                cases hresp : response.data.isEmpty with
                | true => simp [getQuote, hcl, hsm, hresp]
                | false =>
                    cases hlast : (responseDataLines response).getLast? with
                    | none => simp [getQuote, hcl, hsm, hresp, hlast]
                    | some latestLine =>
                        simp [getQuote, hcl, hsm, hresp, hlast, cacheSet, hs2]
  · intro e herr
    cases hcl : cacheLookup now cache symbol with
    | some q => simp [getQuote, hcl]
    | none =>
        cases hsm : SYMBOL_MAP symbol with
        | none => simp [getQuote, hcl, hsm]
        | some ds =>
            cases fetch with
            | error e2 => simp [getQuote, hcl, hsm]
            | ok response =>
                cases hresp : response.data.isEmpty with
                | true => simp [getQuote, hcl, hsm, hresp]
                | false =>
                    cases hlast : (responseDataLines response).getLast? with
                    | none => simp [getQuote, hcl, hsm, hresp, hlast]
                    | some latestLine =>
                        simp [getQuote, hcl, hsm, hresp, hlast] at herr

/-- Witness for C9: a failed fetch for `"ES"` against the empty cache leaves
every entry (here `"NQ"`, and the whole map) unchanged. -/
theorem getQuote_cache_frame_witness :
    (getQuote 0 (Except.error "netfail") emptyCache "ES").2.1 "NQ" =
      emptyCache "NQ" ∧
    (getQuote 0 (Except.error "netfail") emptyCache "ES").2.1 = emptyCache := by
  constructor
  · exact (getQuote_cache_frame 0 (Except.error "netfail") emptyCache "ES").1
      "NQ" (by decide)
  · exact (getQuote_cache_frame 0 (Except.error "netfail") emptyCache "ES").2
      "netfail" rfl

/-- Witness for C2 (amended): a fresh hit at `now = 200` returns the stored
quote verbatim; on a miss at `now = 1000000` the stored entry holds the quote
whose `dataAge` was computed from that fetch-time `now`. -/
theorem getQuote_dataAge_stored_witness :
    (getQuote 200 (Except.error "unused") demoCache "ES").1 =
      Except.ok demoQuote ∧
    (quoteFromLine 7 "ES" csvQuoteRow).dataAge =
      jsSub (JSNum.num (7 : ℚ)) (quoteFromLine 7 "ES" csvQuoteRow).timestamp ∧
    (getQuote 1000000 (Except.ok csvQuote) emptyCache "ES").2.1 "ES" =
      some ⟨quoteFromLine 1000000 "ES" csvQuoteRow, 1000000⟩ := by
  refine ⟨?_, ?_, ?_⟩
  · exact (getQuote_dataAge_stored 200 (Except.error "unused") demoCache
      "ES" "ES.c.0").1 ⟨demoQuote, 100⟩ rfl (by decide)
  · exact (getQuote_dataAge_stored 7 (Except.error "unused") emptyCache
      "ES" "ES.c.0").2.1 csvQuoteRow
  · exact (getQuote_dataAge_stored 1000000 (Except.ok csvQuote) emptyCache
      "ES" "ES.c.0").2.2 csvQuote csvQuoteRow rfl rfl rfl rfl
